import Mathlib

/-!
# Shallow embedding of the HackEurope landing-page scripts

This file embeds, in Lean 4, the client-side logic of the repository:

* `FamHack` (hackathon registration script): email validation, the mocked
  OTP send/verify flow, team-id generation, invite-link intake via URL
  parameters, localStorage persistence of the registration record and of
  per-team member rosters, and the resend-countdown timer.
* `accio-waitlist.js`: the waitlist widget's count refresh and its
  initialisation path driven by the `/api/public-config` response.

JavaScript strings are modelled as Lean `String` (code points instead of
UTF-16 units; the scripts only handle ASCII data), `null`/`undefined`able
fields as `Option`, `localStorage` as `String → Option StoredValue` (the
JSON serialisation round trip is elided, values are kept typed),
`Math.random()` as an explicit stream of indices, and `Date.now()` as an
explicit `now` argument.  Timers fire as explicit `tick` steps.
-/

namespace FamHack

/-- `FamHack.config.emailDomain`. -/
def emailDomain : String := "@ed.ac.uk"

/-- `FamHack.config.otpLength`. -/
def otpLength : Nat := 6

/-- `FamHack.config.otpResendDelay` (seconds). -/
def otpResendDelay : Int := 30

/-- A JavaScript value at `validateEmail`'s public boundary: the function
first tests `!email || typeof email !== 'string'`, so it must be modelled
over more than strings. -/
inductive JSValue where
  | vNull
  | vUndefined
  | vStr (s : String)
  | vNum (n : Int)
  | vBool (b : Bool)
  deriving DecidableEq, Repr

/-- JavaScript truthiness for the modelled values (`!email` in the source).
A string is truthy iff non-empty; `null`/`undefined` are falsy; a number is
truthy iff non-zero; a boolean is itself. -/
def JSValue.truthy : JSValue → Bool
  | .vNull => false
  | .vUndefined => false
  | .vStr s => !s.isEmpty
  | .vNum n => n != 0
  | .vBool b => b

/-- `typeof email === 'string'`. -/
def JSValue.isString : JSValue → Bool
  | .vStr _ => true
  | _ => false

/-- `String.prototype.endsWith`: `s.endsWith(suffix)`. -/
def jsEndsWith (s suffix : String) : Bool :=
  List.isSuffixOf suffix.data s.data

/-- `String.prototype.toLowerCase`, restricted to the ASCII range the
scripts use (Lean's `Char.toLower` lowers exactly A–Z). -/
def jsToLower (s : String) : String :=
  ⟨s.data.map Char.toLower⟩

/-- `String.prototype.trim`, for the ASCII whitespace the scripts use:
drop leading and trailing whitespace. -/
def jsTrim (s : String) : String :=
  ⟨((s.data.dropWhile Char.isWhitespace).reverse.dropWhile Char.isWhitespace).reverse⟩

/-- `FamHack.validateEmail` (source lines 34–38):
`if (!email || typeof email !== 'string') return false;`
`const trimmed = email.trim().toLowerCase();`
`return trimmed.endsWith(domain) && trimmed.length > domain.length;`. -/
def validateEmail (email : JSValue) : Bool :=
  if !email.truthy || !email.isString then false
  else
    match email with
    | .vStr s =>
        let trimmed := jsToLower (jsTrim s)
        jsEndsWith trimmed emailDomain && trimmed.length > emailDomain.length
    | _ => false

/-- The regular expression `/^\d+$/` (`\d` is exactly `[0-9]` in
JavaScript): at least one character and every character a digit. -/
def regexAllDigits (s : String) : Bool :=
  !s.isEmpty && s.data.all Char.isDigit

/-- `FamHack.state` (source lines 14–18): the mutable fields the
registration flow keeps on the singleton object. -/
structure RegState where
  currentEmail : Option String
  teamId : Option String
  isTeamLeader : Bool
  deriving DecidableEq, Repr

/-- The initial `FamHack.state`: `currentEmail: null, teamId: null,
isTeamLeader: false`. -/
def RegState.initial : RegState :=
  { currentEmail := none, teamId := none, isTeamLeader := false }

/-- The registration object built in `saveRegistration` (source lines
444–449): `{ email, teamId, isTeamLeader, timestamp }`.  `email` and
`teamId` copy nullable state fields, so they are `Option`s. -/
structure Registration where
  email : Option String
  teamId : Option String
  isTeamLeader : Bool
  timestamp : Nat
  deriving DecidableEq, Repr

/-- A roster entry pushed by `addTeamMember` (source lines 487–491):
`{ email, isLeader, joinedAt }`. -/
structure TeamMember where
  email : Option String
  isLeader : Bool
  joinedAt : Nat
  deriving DecidableEq, Repr

/-- A value stored in `localStorage` by this script: either the
registration record (under `famhack_registration`) or a member list
(under `famhack_team_<id>`).  The JSON round trip is elided. -/
inductive StoredValue where
  | reg (r : Registration)
  | team (ms : List TeamMember)
  deriving DecidableEq, Repr

/-- `localStorage`, as a typed key-value map. -/
def Store : Type := String → Option StoredValue

/-- `localStorage.setItem`. -/
def Store.set (store : Store) (key : String) (v : StoredValue) : Store :=
  fun k => if k = key then some v else store k

/-- The fixed key of `saveRegistration`/`getStoredRegistration`. -/
def registrationKey : String := "famhack_registration"

/-- The template literal `` `famhack_team_${teamId}` `` from
`addTeamMember` (source line 481).  A `null` team id stringifies to
`"null"` in a template literal. -/
def teamKey (teamId : Option String) : String :=
  "famhack_team_" ++ (match teamId with | some t => t | none => "null")

/-- `FamHack.addTeamMember` (source lines 479–494): read the roster for
the member's team, and push `{email, isLeader, joinedAt}` only when no
existing entry has the same email. -/
def addTeamMember (member : Registration) (store : Store) : Store :=
  let key := teamKey member.teamId
  let members : List TeamMember :=
    match store key with
    | some (.team ms) => ms
    | _ => []
  if (members.find? (fun m => m.email == member.email)).isSome then
    store
  else
    store.set key
      (.team (members ++ [{ email := member.email, isLeader := member.isTeamLeader,
                            joinedAt := member.timestamp }]))

/-- `FamHack.saveRegistration` (source lines 443–454): build the record
from the current state and `Date.now()`, write it under the fixed key,
then also record it in the team members list. -/
def saveRegistration (now : Nat) (s : RegState) (store : Store) : Store :=
  let registration : Registration :=
    { email := s.currentEmail, teamId := s.teamId,
      isTeamLeader := s.isTeamLeader, timestamp := now }
  addTeamMember registration (store.set registrationKey (.reg registration))

/-- `FamHack.getStoredRegistration` (source lines 471–474). -/
def getStoredRegistration (store : Store) : Option Registration :=
  match store registrationKey with
  | some (.reg r) => some r
  | _ => none

/-- `FamHack.getStoredTeamId` (source lines 459–466). -/
def getStoredTeamId (store : Store) : Option String :=
  match getStoredRegistration store with
  | some r => r.teamId
  | none => none

/-- `FamHack.loadTeamMembers`' roster read (source lines 506–508), also
the spec's `getRoster(teamId)`: the stored list for `famhack_team_<id>`,
or `[]` when the team is unknown. -/
def getRoster (store : Store) (teamId : String) : List TeamMember :=
  match store (teamKey (some teamId)) with
  | some (.team ms) => ms
  | _ => []

/-- The alphabet of `generateTeamId`:
`'ABCDEFGHIJKLMNOPQRSTUVWXYZ0123456789'`. -/
def teamIdChars : List Char :=
  "ABCDEFGHIJKLMNOPQRSTUVWXYZ0123456789".data

theorem teamIdChars_length : teamIdChars.length = 36 := by decide

/-- `FamHack.generateTeamId` (source lines 78–85): eight characters, each
`chars.charAt(Math.floor(Math.random() * chars.length))`.  `Math.random()`
is modelled by the stream `rand` of pre-drawn indices below 36. -/
def generateTeamId (rand : Nat → Fin 36) : String :=
  ⟨(List.range 8).map fun i => teamIdChars.get (Fin.cast teamIdChars_length.symm (rand i))⟩

/-- `FamHack.verifyOTP` (source lines 55–73), with the 1000 ms timer
elided: validity is `otp && otp.length === 6 && /^\d+$/.test(otp)`; on
success a team id is generated when none is set (making this session the
leader), the registration is saved, and `{success: true, teamId}` is
resolved; otherwise `{success: false}` and nothing changes. -/
def verifyOTP (rand : Nat → Fin 36) (now : Nat) (otp : String)
    (s : RegState) (store : Store) : Bool × RegState × Store :=
  let isValid := !otp.isEmpty && otp.length == otpLength && regexAllDigits otp
  if isValid then
    let s' :=
      if s.teamId.isNone then
        { s with teamId := some (generateTeamId rand), isTeamLeader := true }
      else s
    (true, s', saveRegistration now s' store)
  else
    (false, s, store)

/-- `FamHack.checkURLParams` (source lines 424–438): when the URL carries
a `t` parameter and the page is `join.html`, pre-seed the state with that
team id and `isTeamLeader = false`.  `urlParams.get('t')` yields `null`
when absent, and the guard `if (teamId && ...)` drops the empty string. -/
def checkURLParams (tParam : Option String) (onJoinPage : Bool)
    (s : RegState) : RegState :=
  match tParam with
  | some t =>
      if !t.isEmpty && onJoinPage then
        { s with teamId := some t, isTeamLeader := false }
      else s
  | none => s

/-- The registration flow's UI step: the email form, the OTP entry step
(`AwaitingOTP` in the spec), or the redirect to `dashboard.html` after a
successful verification. -/
inductive Step where
  | enteringEmail
  | awaitingOTP
  | verified
  deriving DecidableEq, Repr

/-- The page state `handleVerifyOTP` manipulates: the current step, the
`FamHack.state` fields, the storage, the joined value of the OTP digit
inputs, the `#otp-error` text, and the verify button's disabled flag. -/
structure FlowState where
  step : Step
  reg : RegState
  store : Store
  otpInput : String
  otpError : String
  verifyDisabled : Bool

/-- `FamHack.handleVerifyOTP` (source lines 317–352): read the OTP from
the inputs; if it is not of full length, show `'Please enter the complete
OTP'` and return (inputs untouched); otherwise clear the error, disable
the button, run `verifyOTP`, and on success redirect to the dashboard
while on failure re-enable the button, show `'Invalid OTP'`, and clear
the OTP inputs. -/
def handleVerifyOTP (rand : Nat → Fin 36) (now : Nat) (f : FlowState) : FlowState :=
  let otp := f.otpInput
  if otp.length != otpLength then
    { f with otpError := "Please enter the complete OTP" }
  else
    let f1 := { f with otpError := "", verifyDisabled := true }
    match verifyOTP rand now otp f1.reg f1.store with
    | (true, s', store') =>
        { f1 with reg := s', store := store', step := .verified }
    | (false, s', store') =>
        { f1 with reg := s', store := store', verifyDisabled := false,
                  otpError := "Invalid OTP", otpInput := "" }

/-- The state touched by the resend-OTP flow: the remaining countdown
seconds (`let seconds` in `startResendCountdown`), whether the resend
button is disabled, whether the `setInterval` timer is currently
scheduled, the button label, and the OTP digit inputs (cleared by
`handleResendOTP`). -/
structure ResendState where
  seconds : Int
  resendDisabled : Bool
  timerActive : Bool
  btnText : String
  otpInput : String
  deriving DecidableEq, Repr

/-- `FamHack.startResendCountdown` (source lines 369–387), up to the
`setInterval` call: `seconds = otpResendDelay`, the button is disabled
and relabelled, and a 1-second repeating timer is scheduled. -/
def startResendCountdown (s : ResendState) : ResendState :=
  { s with seconds := otpResendDelay, resendDisabled := true, timerActive := true,
           btnText := "Resend in " ++ toString otpResendDelay ++ "s" }

/-- One firing of the `setInterval` callback in `startResendCountdown`
(source lines 377–386): `seconds--`; at `seconds <= 0` the interval is
cleared and the button re-enabled, otherwise the label is updated.  When
no timer is scheduled nothing fires, so the step is the identity. -/
def countdownTick (s : ResendState) : ResendState :=
  if !s.timerActive then s
  else
    let secs := s.seconds - 1
    if secs ≤ 0 then
      { s with seconds := secs, timerActive := false, resendDisabled := false,
               btnText := "Resend OTP" }
    else
      { s with seconds := secs, btnText := "Resend in " ++ toString secs ++ "s" }

/-- `FamHack.handleResendOTP` (source lines 357–364): if the resend
button is disabled the handler returns immediately; otherwise it clears
the OTP inputs, re-sends the OTP (the mock `sendOTP` always succeeds and
has no modelled effect), and starts the countdown again. -/
def handleResendOTP (s : ResendState) : ResendState :=
  if s.resendDisabled then s
  else startResendCountdown { s with otpInput := "" }

/-- A fixed random stream, for evaluating the flow at concrete inputs. -/
def rand0 : Nat → Fin 36 := fun _ => (0 : Fin 36)

/-- A concrete page state sitting at the OTP step with the five-character
code `12345` typed into the inputs. -/
def shortCodeFlow : FlowState :=
  { step := .awaitingOTP, reg := RegState.initial, store := fun _ => none,
    otpInput := "12345", otpError := "", verifyDisabled := false }

end FamHack

namespace Waitlist

/-- A JavaScript number as it reaches `setCount`: a finite value
(modelled as an integer, which covers every count the endpoints emit) or
one of the non-finite values `Number(...)` can produce. -/
inductive JSNum where
  | finite (v : Int)
  | nan
  | posInf
  | negInf
  deriving DecidableEq, Repr

/-- `Number.isFinite`. -/
def JSNum.isFinite : JSNum → Bool
  | .finite _ => true
  | _ => false

/-- `setCount` (accio-waitlist.js lines 35–39): the displayed value is
`Number.isFinite(n) ? Math.max(0, n) : 0`.  The `Intl.NumberFormat`
rendering of the displayed value is elided; we keep the number itself. -/
def setCount (n : JSNum) : Int :=
  match n with
  | .finite v => max 0 v
  | _ => 0

/-- The outcome of `fetch('/api/waitlist/count')` followed by
`res.json()`: the transport can throw, the body can fail to parse, or a
JSON object arrives whose `count` field is absent or some number.  (JSON
itself cannot encode `NaN`/`Infinity`, but the model keeps `JSNum` so the
`Number.isFinite` guard in `setCount` is represented.) -/
inductive CountFetch where
  | transportError
  | parseError
  | ok (count : Option JSNum)
  deriving DecidableEq, Repr

/-- `refreshCount` (accio-waitlist.js lines 59–67) acting on the
displayed count: on any throw (transport or parse) the `catch (_) {}`
keeps the stale value; on success the displayed count becomes
`setCount(Number(data.count ?? 0))` (`Number` is the identity on a number
already, and `?? 0` supplies the default for a missing field). -/
def refreshCount (outcome : CountFetch) (displayed : Int) : Int :=
  match outcome with
  | .transportError => displayed
  | .parseError => displayed
  | .ok count => setCount (count.getD (.finite 0))

/-- The JSON body of `/api/public-config` as `init` reads it:
`supabaseConfigured` plus the optional credential fields. -/
structure ConfigResp where
  supabaseConfigured : Bool
  supabaseUrl : Option String
  supabaseAnonKey : Option String
  deriving DecidableEq, Repr

/-- What the `init` run leaves on the page: the status line, whether the
email form or the confirmed card is displayed, whether a Supabase client
was created (`supabase = window.supabase.createClient(...)` executed),
and whether count polling was started. -/
structure InitResult where
  status : String
  emailFormShown : Bool
  confirmedShown : Bool
  clientCreated : Bool
  pollingStarted : Bool
  deriving DecidableEq, Repr

/-- `init` (accio-waitlist.js lines 144–225), as a function of its
external inputs: whether the waitlist section exists on the page, the
config fetch outcome (`.error` when `fetch`/`res.json()` throws), whether
the CDN Supabase library loaded, and the session (the signed-in email, if
any) that `getSession` reports once a client exists.  Each early-return
path of the source is one branch. -/
def init (hasWaitlistSection : Bool) (configResult : Except Unit ConfigResp)
    (libLoaded : Bool) (session : Option String) : InitResult :=
  if !hasWaitlistSection then
    { status := "", emailFormShown := false, confirmedShown := false,
      clientCreated := false, pollingStarted := false }
  else
    match configResult with
    | .error _ =>
        { status := "Could not reach the server. Please refresh.",
          emailFormShown := true, confirmedShown := false,
          clientCreated := false, pollingStarted := true }
    | .ok config =>
        if !config.supabaseConfigured then
          { status := "Waitlist live. Auth coming soon.",
            emailFormShown := true, confirmedShown := false,
            clientCreated := false, pollingStarted := true }
        else if !libLoaded then
          { status := "Auth library failed to load. Refresh and try again.",
            emailFormShown := true, confirmedShown := false,
            clientCreated := false, pollingStarted := true }
        else
          match session with
          | some _ =>
              { status := "You're on the waitlist! We'll be in touch.",
                emailFormShown := false, confirmedShown := true,
                clientCreated := true, pollingStarted := true }
          | none =>
              { status := "Enter your email to join the waitlist.",
                emailFormShown := true, confirmedShown := false,
                clientCreated := true, pollingStarted := true }

end Waitlist

namespace FamHack

example : validateEmail (.vStr "alice@ed.ac.uk") = true := by decide

example : validateEmail (.vStr "alice@gmail.com") = false := by decide

example : validateEmail (.vStr " ALICE@ED.AC.UK ") = true := by decide

example : validateEmail (.vStr "@ed.ac.uk") = false := by decide

/-- Helper: the `isValid` condition of `verifyOTP`, as a proposition about
the code string. -/
theorem otpValid_iff (otp : String) :
    (!otp.isEmpty && otp.length == otpLength && regexAllDigits otp) = true ↔
      (otp.length = otpLength ∧ ∀ c ∈ otp.data, '0' ≤ c ∧ c ≤ '9') := by
  by_cases he : otp = ""
  · subst he
    simp [otpLength]
  · simp only [regexAllDigits, Bool.and_eq_true, Bool.not_eq_true',
      String.isEmpty_iff, beq_iff_eq, List.all_eq_true, Char.isDigit]
    constructor
    · rintro ⟨⟨hne, hlen⟩, -, hdig⟩
      refine ⟨hlen, fun c hc => ?_⟩
      have := hdig c hc
      simp only [Bool.and_eq_true, decide_eq_true_eq] at this
      exact this
    · rintro ⟨hlen, hdig⟩
      have hie : otp.isEmpty = false := by
        rw [Bool.eq_false_iff]
        intro hx
        exact he ((String.isEmpty_iff otp).mp hx)
      refine ⟨⟨hie, hlen⟩, hie, fun c hc => ?_⟩
      simp only [Bool.and_eq_true, decide_eq_true_eq]
      exact hdig c hc

/-- Helper: a team key never collides with the fixed registration key. -/
theorem teamKey_ne_registrationKey (tid : Option String) :
    teamKey tid ≠ registrationKey := by
  intro h
  have hd : (teamKey tid).data = registrationKey.data := congrArg String.data h
  unfold teamKey at hd
  rw [String.data_append] at hd
  have hlen : ("famhack_team_" : String).data.length = 13 := by decide
  have h13 : registrationKey.data.take 13 = ("famhack_team_" : String).data := by
    rw [← hd, ← hlen]
    exact List.take_left _ _
  exact absurd h13 (by decide)

/-- Helper: reading a set store at a different key sees the old store. -/
theorem Store.get_set_ne (st : Store) (k key : String) (v : StoredValue)
    (h : k ≠ key) : st.set key v k = st k := by
  simp [Store.set, h]

/-- Helper: the only key `addTeamMember` can write is the member's team
key. -/
theorem addTeamMember_get_ne (r : Registration) (st : Store) (k : String)
    (h : k ≠ teamKey r.teamId) : addTeamMember r st k = st k := by
  unfold addTeamMember
  split
  · rfl
  · exact Store.get_set_ne st k _ _ h

/-- Helper: `addTeamMember` never disturbs the stored registration
record. -/
theorem getStoredRegistration_addTeamMember (r : Registration) (st : Store) :
    getStoredRegistration (addTeamMember r st) = getStoredRegistration st := by
  unfold getStoredRegistration
  rw [addTeamMember_get_ne r st registrationKey (Ne.symm (teamKey_ne_registrationKey _))]

/-- Helper: after `saveRegistration`, the stored record is exactly the
record built from the state and the clock. -/
theorem getStoredRegistration_save (now : Nat) (s : RegState) (store : Store) :
    getStoredRegistration (saveRegistration now s store) =
      some { email := s.currentEmail, teamId := s.teamId,
             isTeamLeader := s.isTeamLeader, timestamp := now } := by
  unfold saveRegistration
  rw [getStoredRegistration_addTeamMember]
  unfold getStoredRegistration Store.set
  simp

/-- Helper: the generated team id has exactly 8 characters. -/
theorem generateTeamId_length (rand : Nat → Fin 36) :
    (generateTeamId rand).length = 8 := by
  simp [generateTeamId, String.length]

/-- Helper: every character of the alphabet is an uppercase letter or a
digit. -/
theorem teamIdChars_sound :
    ∀ c ∈ teamIdChars, ('A' ≤ c ∧ c ≤ 'Z') ∨ ('0' ≤ c ∧ c ≤ '9') := by
  decide

/-- Helper: every character of a generated team id is an uppercase letter
or a digit. -/
theorem generateTeamId_chars (rand : Nat → Fin 36) :
    ∀ c ∈ (generateTeamId rand).data, ('A' ≤ c ∧ c ≤ 'Z') ∨ ('0' ≤ c ∧ c ≤ '9') := by
  intro c hc
  simp only [generateTeamId, List.mem_map, List.mem_range] at hc
  obtain ⟨i, -, rfl⟩ := hc
  exact teamIdChars_sound _ (List.get_mem _ _ _)

end FamHack

namespace FamHack

/-- C10: for every non-string input (null, undefined, number, boolean),
`validateEmail` returns `false` instead of failing: the guard
`!email || typeof email !== 'string'` makes the function total over all
modelled JavaScript values. -/
theorem claim_C10_validateEmail_total_on_nonstrings (v : JSValue)
    (h : v.isString = false) : validateEmail v = false := by
  cases v <;> simp_all [validateEmail, JSValue.isString, JSValue.truthy]

theorem claim_C10_witness : validateEmail .vNull = false :=
  claim_C10_validateEmail_total_on_nonstrings .vNull (by decide)

/-- C3: for every string whose trimmed, lower-cased form does not end in
the required domain suffix `@ed.ac.uk`, `validateEmail` returns false;
for every string whose trimmed, lower-cased form ends in that suffix with
a non-empty local part before it, `validateEmail` returns true. -/
theorem claim_C3_validateEmail_suffix (s : String) :
    (jsEndsWith (jsToLower (jsTrim s)) emailDomain = false →
      validateEmail (.vStr s) = false) ∧
    (jsEndsWith (jsToLower (jsTrim s)) emailDomain = true →
      emailDomain.length < (jsToLower (jsTrim s)).length →
      validateEmail (.vStr s) = true) := by
  constructor
  · intro h
    by_cases he : s.isEmpty
    · simp [validateEmail, JSValue.truthy, he]
    · simp [validateEmail, JSValue.truthy, JSValue.isString, he, h]
  · intro h hlen
    by_cases he : s.isEmpty
    · exfalso
      rw [String.isEmpty_iff] at he
      subst he
      exact absurd h (by decide)
    · simp [validateEmail, JSValue.truthy, JSValue.isString, he, h, hlen]

theorem claim_C3_witness :
    validateEmail (.vStr " Alice@ED.ac.uk ") = true ∧
    validateEmail (.vStr "bob@gmail.com") = false :=
  ⟨(claim_C3_validateEmail_suffix " Alice@ED.ac.uk ").2 (by decide) (by decide),
   (claim_C3_validateEmail_suffix "bob@gmail.com").1 (by decide)⟩

/-- C2: `verifyOTP` (the `submitOTP` of the spec) reports success exactly
when the submitted code has the configured length (6) and every character
is a decimal digit; every other code reports failure. -/
theorem claim_C2_otp_acceptance_iff (rand : Nat → Fin 36) (now : Nat)
    (otp : String) (s : RegState) (store : Store) :
    (verifyOTP rand now otp s store).1 = true ↔
      (otp.length = otpLength ∧ ∀ c ∈ otp.data, '0' ≤ c ∧ c ≤ '9') := by
  rw [← otpValid_iff otp]
  rcases hb : (!otp.isEmpty && otp.length == otpLength && regexAllDigits otp) with _ | _ <;>
    simp [verifyOTP, hb]

end FamHack

namespace Waitlist

/-- C7: when the config endpoint reports the service as not configured,
`init` takes the informational non-authenticated path: the email form is
shown with the informational status line, the confirmed card is not, and
no Supabase auth client is ever created. -/
theorem claim_C7_unconfigured_informational_path (url anonKey : Option String)
    (libLoaded : Bool) (session : Option String) :
    init true (.ok { supabaseConfigured := false, supabaseUrl := url,
                     supabaseAnonKey := anonKey }) libLoaded session =
      { status := "Waitlist live. Auth coming soon.", emailFormShown := true,
        confirmedShown := false, clientCreated := false, pollingStarted := true } := by
  rfl

/-- C8: every transport or parse failure of the count fetch leaves the
displayed count unchanged; a successful fetch displays the returned count
clamped to a non-negative value, `0` when the field is missing, and `0`
when the value is not finite. -/
theorem claim_C8_count_refresh_semantics :
    (∀ d : Int, refreshCount .transportError d = d) ∧
    (∀ d : Int, refreshCount .parseError d = d) ∧
    (∀ (d c : Int), refreshCount (.ok (some (.finite c))) d = max 0 c) ∧
    (∀ d : Int, refreshCount (.ok none) d = 0) ∧
    (∀ (d : Int) (j : JSNum), j.isFinite = false →
        refreshCount (.ok (some j)) d = 0) ∧
    (∀ (d : Int) (c : Option JSNum), 0 ≤ refreshCount (.ok c) d) := by
  refine ⟨fun d => rfl, fun d => rfl, fun d c => rfl, fun d => rfl, ?_, ?_⟩
  · intro d j hj
    cases j <;> simp_all [refreshCount, setCount, JSNum.isFinite]
  · intro d c
    rcases c with _ | j
    · simp [refreshCount, setCount]
    · cases j <;> simp [refreshCount, setCount]

end Waitlist

namespace FamHack

/-- C1: whenever OTP verification accepts a well-formed code: if no team
id is associated with the session, a fresh team id drawn by
`generateTeamId` — exactly 8 characters, each an uppercase letter or a
digit — is assigned and the saved RegistrationRecord has
`isTeamLeader = true`; if a team id was supplied externally through the
invite parameter before verification, that id is kept unchanged and the
record has `isTeamLeader = false`. -/
theorem claim_C1_team_assignment_on_acceptance (rand : Nat → Fin 36) (now : Nat)
    (otp : String) (store : Store) (hlen : otp.length = otpLength)
    (hdig : ∀ c ∈ otp.data, '0' ≤ c ∧ c ≤ '9') :
    (∀ s : RegState, s.teamId = none →
      (verifyOTP rand now otp s store).1 = true ∧
      (verifyOTP rand now otp s store).2.1.teamId = some (generateTeamId rand) ∧
      (verifyOTP rand now otp s store).2.1.isTeamLeader = true ∧
      (generateTeamId rand).length = 8 ∧
      (∀ c ∈ (generateTeamId rand).data, ('A' ≤ c ∧ c ≤ 'Z') ∨ ('0' ≤ c ∧ c ≤ '9')) ∧
      getStoredRegistration (verifyOTP rand now otp s store).2.2 =
        some { email := s.currentEmail, teamId := some (generateTeamId rand),
               isTeamLeader := true, timestamp := now }) ∧
    (∀ (s₀ : RegState) (t : String), t ≠ "" →
      (verifyOTP rand now otp (checkURLParams (some t) true s₀) store).1 = true ∧
      (verifyOTP rand now otp (checkURLParams (some t) true s₀) store).2.1.teamId = some t ∧
      (verifyOTP rand now otp (checkURLParams (some t) true s₀) store).2.1.isTeamLeader = false ∧
      getStoredRegistration (verifyOTP rand now otp (checkURLParams (some t) true s₀) store).2.2 =
        some { email := s₀.currentEmail, teamId := some t,
               isTeamLeader := false, timestamp := now }) := by
  have hvalid : (!otp.isEmpty && otp.length == otpLength && regexAllDigits otp) = true :=
    (otpValid_iff otp).mpr ⟨hlen, hdig⟩
  constructor
  · intro s hs
    have hres : verifyOTP rand now otp s store =
        (true, { s with teamId := some (generateTeamId rand), isTeamLeader := true },
         saveRegistration now
           { s with teamId := some (generateTeamId rand), isTeamLeader := true } store) := by
      simp [verifyOTP, hvalid, hs]
    rw [hres]
    refine ⟨rfl, rfl, rfl, generateTeamId_length rand, generateTeamId_chars rand, ?_⟩
    rw [getStoredRegistration_save]
  · intro s₀ t ht
    have htb : t.isEmpty = false := by
      rw [Bool.eq_false_iff]
      intro hx
      exact ht ((String.isEmpty_iff t).mp hx)
    have hseed : checkURLParams (some t) true s₀ =
        { s₀ with teamId := some t, isTeamLeader := false } := by
      simp [checkURLParams, htb]
    have hres : verifyOTP rand now otp (checkURLParams (some t) true s₀) store =
        (true, { s₀ with teamId := some t, isTeamLeader := false },
         saveRegistration now { s₀ with teamId := some t, isTeamLeader := false } store) := by
      rw [hseed]
      simp [verifyOTP, hvalid]
    rw [hres]
    refine ⟨rfl, rfl, rfl, ?_⟩
    rw [getStoredRegistration_save]

theorem claim_C1_witness :
    ((verifyOTP (fun _ => (0 : Fin 36)) 0 "123456" RegState.initial
        (fun _ => none)).2.1.isTeamLeader = true ∧
      (verifyOTP (fun _ => (0 : Fin 36)) 0 "123456" RegState.initial
        (fun _ => none)).2.1.teamId = some (generateTeamId (fun _ => (0 : Fin 36)))) ∧
    ((verifyOTP (fun _ => (0 : Fin 36)) 0 "000000"
        (checkURLParams (some "ABCD1234") true RegState.initial)
        (fun _ => none)).2.1.teamId = some "ABCD1234" ∧
      (verifyOTP (fun _ => (0 : Fin 36)) 0 "000000"
        (checkURLParams (some "ABCD1234") true RegState.initial)
        (fun _ => none)).2.1.isTeamLeader = false) := by
  have h1 := claim_C1_team_assignment_on_acceptance (fun _ => (0 : Fin 36)) 0 "123456"
    (fun _ => none) (by decide) (by decide)
  have h2 := claim_C1_team_assignment_on_acceptance (fun _ => (0 : Fin 36)) 0 "000000"
    (fun _ => none) (by decide) (by decide)
  obtain ⟨-, hteam, hlead, -, -, -⟩ := h1.1 RegState.initial rfl
  obtain ⟨-, hc, hd, -⟩ := h2.2 RegState.initial "ABCD1234" (by decide)
  exact ⟨⟨hlead, hteam⟩, ⟨hc, hd⟩⟩

end FamHack

namespace FamHack

/-- Helper: when the member belongs to team `tid`, `addTeamMember` reads
and writes exactly the roster of `tid`. -/
theorem addTeamMember_eq (r : Registration) (tid : String)
    (h : r.teamId = some tid) (store : Store) :
    addTeamMember r store =
      if ((getRoster store tid).find? (fun m => m.email == r.email)).isSome then store
      else store.set (teamKey (some tid))
        (.team (getRoster store tid ++
          [{ email := r.email, isLeader := r.isTeamLeader, joinedAt := r.timestamp }])) := by
  unfold addTeamMember getRoster
  rw [h]

/-- Helper: reading back a roster just written. -/
theorem getRoster_set_self (store : Store) (tid : String) (ms : List TeamMember) :
    getRoster (store.set (teamKey (some tid)) (.team ms)) tid = ms := by
  simp [getRoster, Store.set]

/-- Helper: a second `addTeamMember` with the same member is the
identity: the appended entry itself now matches the email search. -/
theorem addTeamMember_idem (r : Registration) (tid : String)
    (h : r.teamId = some tid) (store : Store) :
    addTeamMember r (addTeamMember r store) = addTeamMember r store := by
  by_cases hfind : ((getRoster store tid).find? (fun m => m.email == r.email)).isSome
  · rw [addTeamMember_eq r tid h store, if_pos hfind, addTeamMember_eq r tid h store,
      if_pos hfind]
  · have h1 : addTeamMember r store = store.set (teamKey (some tid))
        (.team (getRoster store tid ++
          [{ email := r.email, isLeader := r.isTeamLeader, joinedAt := r.timestamp }])) := by
      rw [addTeamMember_eq r tid h store, if_neg hfind]
    have hroster : getRoster (addTeamMember r store) tid =
        getRoster store tid ++
          [{ email := r.email, isLeader := r.isTeamLeader, joinedAt := r.timestamp }] := by
      rw [h1, getRoster_set_self]
    have hfound : ((getRoster (addTeamMember r store) tid).find?
        (fun m => m.email == r.email)).isSome := by
      rw [hroster]
      refine List.find?_isSome.mpr
        ⟨{ email := r.email, isLeader := r.isTeamLeader, joinedAt := r.timestamp },
          List.mem_append_right _ (List.mem_singleton_self _), ?_⟩
      simp
    rw [addTeamMember_eq r tid h (addTeamMember r store), if_pos hfound]

/-- C4: `addTeamMember` (the `addMember` of the spec) is idempotent per
team and email: a member whose email is already in the roster leaves the
store unchanged, adding the same member twice leaves the roster length
unchanged, a member with a new email is appended at the end, and rosters
with pairwise-distinct emails keep that uniqueness. -/
theorem claim_C4_addMember_idempotent (store : Store) (r : Registration)
    (tid : String) (h : r.teamId = some tid) :
    ((∃ m ∈ getRoster store tid, m.email = r.email) →
        addTeamMember r store = store) ∧
    (getRoster (addTeamMember r (addTeamMember r store)) tid).length =
        (getRoster (addTeamMember r store) tid).length ∧
    ((∀ m ∈ getRoster store tid, m.email ≠ r.email) →
        getRoster (addTeamMember r store) tid =
          getRoster store tid ++
            [{ email := r.email, isLeader := r.isTeamLeader, joinedAt := r.timestamp }]) ∧
    (((getRoster store tid).map TeamMember.email).Nodup →
        ((getRoster (addTeamMember r store) tid).map TeamMember.email).Nodup) := by
  have hfind_of_ex : (∃ m ∈ getRoster store tid, m.email = r.email) →
      ((getRoster store tid).find? (fun m => m.email == r.email)).isSome := by
    rintro ⟨m, hm, he⟩
    exact List.find?_isSome.mpr ⟨m, hm, by simp [he]⟩
  have hfind_of_all : (∀ m ∈ getRoster store tid, m.email ≠ r.email) →
      ((getRoster store tid).find? (fun m => m.email == r.email)).isSome = false := by
    intro hall
    rw [Bool.eq_false_iff]
    intro hx
    obtain ⟨m, hm, he⟩ := List.find?_isSome.mp hx
    exact hall m hm (by simpa using he)
  refine ⟨?_, ?_, ?_, ?_⟩
  · intro hex
    rw [addTeamMember_eq r tid h store, if_pos (hfind_of_ex hex)]
  · rw [addTeamMember_idem r tid h store]
  · intro hall
    rw [addTeamMember_eq r tid h store, if_neg (by rw [hfind_of_all hall]; simp),
      getRoster_set_self]
  · intro hnd
    by_cases hfind : ((getRoster store tid).find? (fun m => m.email == r.email)).isSome
    · rw [addTeamMember_eq r tid h store, if_pos hfind]
      exact hnd
    · rw [addTeamMember_eq r tid h store, if_neg hfind, getRoster_set_self]
      rw [List.map_append, List.nodup_append]
      refine ⟨hnd, by simp, ?_⟩
      intro e he he'
      simp only [List.map_cons, List.map_nil, List.mem_singleton] at he'
      subst he'
      obtain ⟨m, hm, hme⟩ := List.mem_map.mp he
      have : ((getRoster store tid).find? (fun m => m.email == r.email)).isSome :=
        List.find?_isSome.mpr ⟨m, hm, by simp [hme]⟩
      exact hfind this

theorem claim_C4_witness :
    (addTeamMember ⟨some "a@ed.ac.uk", some "T1", true, 1⟩
        (addTeamMember ⟨some "a@ed.ac.uk", some "T1", true, 1⟩ (fun _ => none))) =
      addTeamMember ⟨some "a@ed.ac.uk", some "T1", true, 1⟩ (fun _ => none) ∧
    getRoster (addTeamMember ⟨some "a@ed.ac.uk", some "T1", true, 1⟩ (fun _ => none)) "T1" =
      [⟨some "a@ed.ac.uk", true, 1⟩] := by
  have h := claim_C4_addMember_idempotent (fun _ => none)
    ⟨some "a@ed.ac.uk", some "T1", true, 1⟩ "T1" rfl
  refine ⟨addTeamMember_idem _ "T1" rfl _, ?_⟩
  have happ := h.2.2.1 (by intro m hm; simp [getRoster] at hm)
  simpa [getRoster] using happ

end FamHack

namespace FamHack

/-- C6: the store holds at most one registration record: every
`saveRegistration` writes the record under the single fixed key
`famhack_registration`, overwriting any prior record, so after any
non-empty sequence of saves `getStoredRegistration` returns exactly the
record of the most recent save. -/
theorem claim_C6_single_record_last_save_wins (store : Store)
    (saves : List (RegState × Nat)) (h : saves ≠ []) :
    getStoredRegistration
        (saves.foldl (fun st p => saveRegistration p.2 p.1 st) store) =
      some { email := (saves.getLast h).1.currentEmail,
             teamId := (saves.getLast h).1.teamId,
             isTeamLeader := (saves.getLast h).1.isTeamLeader,
             timestamp := (saves.getLast h).2 } := by
  rcases saves.eq_nil_or_concat with rfl | ⟨xs, p, rfl⟩
  · exact absurd rfl h
  · simp only [List.concat_eq_append]
    rw [List.foldl_append, List.getLast_append]
    simp only [List.foldl_cons, List.foldl_nil]
    exact getStoredRegistration_save _ _ _

theorem claim_C6_witness :
    getStoredRegistration
        (([(RegState.initial, 5), ({ currentEmail := some "a@ed.ac.uk", teamId := some "T1", isTeamLeader := true }, 9)] :
            List (RegState × Nat)).foldl
          (fun st p => saveRegistration p.2 p.1 st) (fun _ => none)) =
      some { email := some "a@ed.ac.uk", teamId := some "T1",
             isTeamLeader := true, timestamp := 9 } := by
  have h := claim_C6_single_record_last_save_wins (fun _ => none)
    [(RegState.initial, 5), ({ currentEmail := some "a@ed.ac.uk", teamId := some "T1", isTeamLeader := true }, 9)]
    (by simp)
  simpa using h

end FamHack

namespace FamHack

/-- C5 counterexample: the claim also asserts that every rejected code
leaves the flow with the OTP input cleared, but for the too-short code
`12345` the handler returns at the length guard without clearing the
inputs: afterwards the inputs still hold `12345`, not the empty string. -/
theorem claim_C5_counterexample :
    "12345".length ≠ otpLength ∧
    (handleVerifyOTP rand0 0 shortCodeFlow).otpInput = "12345" ∧
    (handleVerifyOTP rand0 0 shortCodeFlow).otpInput ≠ "" := by
  refine ⟨by decide, rfl, by decide⟩

/-- C5 (amended): for every code that does not have the configured length
or contains a non-digit, `handleVerifyOTP` rejects without mutating
stored state or the registration state, the step is unchanged (so an
awaiting-OTP flow stays awaiting), and an error is surfaced; the OTP
input is cleared when the code has the configured length (the non-digit
case) and left unchanged when the length is wrong. -/
theorem claim_C5_amended_rejection_without_mutation (rand : Nat → Fin 36)
    (now : Nat) (f : FlowState)
    (hbad : ¬ (f.otpInput.length = otpLength ∧ ∀ c ∈ f.otpInput.data, '0' ≤ c ∧ c ≤ '9')) :
    (handleVerifyOTP rand now f).store = f.store ∧
    (handleVerifyOTP rand now f).reg = f.reg ∧
    (handleVerifyOTP rand now f).step = f.step ∧
    (handleVerifyOTP rand now f).otpError ≠ "" ∧
    (handleVerifyOTP rand now f).otpInput =
      (if f.otpInput.length = otpLength then "" else f.otpInput) := by
  by_cases hlen : f.otpInput.length = otpLength
  · have hdig : ¬ ∀ c ∈ f.otpInput.data, '0' ≤ c ∧ c ≤ '9' := by
      intro hd
      exact hbad ⟨hlen, hd⟩
    have hcond : (!f.otpInput.isEmpty && f.otpInput.length == otpLength &&
        regexAllDigits f.otpInput) = false := by
      rw [Bool.eq_false_iff]
      intro hc
      exact hbad ((otpValid_iff _).mp hc)
    have hver : verifyOTP rand now f.otpInput f.reg f.store = (false, f.reg, f.store) := by
      simp [verifyOTP, hcond]
    simp [handleVerifyOTP, hlen, hver]
  · simp [handleVerifyOTP, hlen]

theorem claim_C5_amended_witness :
    (handleVerifyOTP rand0 0 shortCodeFlow).store = shortCodeFlow.store ∧
    (handleVerifyOTP rand0 0 shortCodeFlow).reg = shortCodeFlow.reg ∧
    (handleVerifyOTP rand0 0 shortCodeFlow).step = shortCodeFlow.step ∧
    (handleVerifyOTP rand0 0 shortCodeFlow).otpError ≠ "" ∧
    (handleVerifyOTP rand0 0 shortCodeFlow).otpInput =
      (if shortCodeFlow.otpInput.length = otpLength then "" else shortCodeFlow.otpInput) :=
  claim_C5_amended_rejection_without_mutation rand0 0 shortCodeFlow (by decide)

end FamHack

namespace FamHack

/-- Helper: a fired-but-cleared timer never fires again: the tick step is
the identity once `timerActive` is false. -/
theorem countdownTick_inactive (s : ResendState) (h : s.timerActive = false) :
    countdownTick s = s := by
  simp [countdownTick, h]

/-- Helper: closed form of the countdown during the cooldown: after `n`
ticks (`n ≤ 29`) the timer is still scheduled, the button is still
disabled, and `seconds = 30 - n`. -/
theorem countdown_closed_form (s : ResendState) (n : Nat) (h : n ≤ 29) :
    countdownTick^[n] (startResendCountdown s) =
      { seconds := 30 - (n : Int), resendDisabled := true, timerActive := true,
        btnText := "Resend in " ++ toString (30 - (n : Int)) ++ "s",
        otpInput := s.otpInput } := by
  induction n with
  | zero => rfl
  | succ n ih =>
      rw [Function.iterate_succ_apply', ih (Nat.le_of_succ_le h)]
      have hpos : ¬ ((30 - (n : Int)) - 1 ≤ 0) := by
        have : (n : Int) ≤ 28 := by exact_mod_cast Nat.le_of_succ_le_succ h
        omega
      have harith : (30 - (n : Int)) - 1 = 30 - ((n + 1 : Nat) : Int) := by
        push_cast
        ring
      simp only [countdownTick, Bool.not_true, Bool.false_eq_true, if_false, hpos,
        if_neg hpos]
      rw [harith]

/-- C9: `handleResendOTP` is a no-op while the resend cooldown is active
(the button is disabled for the whole delay), and the per-second
countdown timer started by a resend is cancelled exactly when the
countdown reaches zero: during the first 29 ticks the timer stays
scheduled and resend stays disabled, at the 30th tick the timer is
cleared and resend re-enabled, and no further tick changes anything. -/
theorem claim_C9_resend_cooldown_and_timer_cancellation :
    (∀ s : ResendState, s.resendDisabled = true → handleResendOTP s = s) ∧
    (∀ (s : ResendState) (n : Nat), n < 30 →
      (countdownTick^[n] (startResendCountdown s)).timerActive = true ∧
      (countdownTick^[n] (startResendCountdown s)).resendDisabled = true) ∧
    (∀ s : ResendState,
      (countdownTick^[30] (startResendCountdown s)).timerActive = false ∧
      (countdownTick^[30] (startResendCountdown s)).resendDisabled = false) ∧
    (∀ (s : ResendState) (n : Nat), 30 ≤ n →
      countdownTick^[n] (startResendCountdown s) =
        countdownTick^[30] (startResendCountdown s)) := by
  have h30 : ∀ s : ResendState,
      countdownTick^[30] (startResendCountdown s) =
        { seconds := 0, resendDisabled := false, timerActive := false,
          btnText := "Resend OTP", otpInput := s.otpInput } := by
    intro s
    have : (30 : Nat) = 29 + 1 := rfl
    rw [this, Function.iterate_succ_apply', countdown_closed_form s 29 (by omega)]
    norm_num [countdownTick]
  refine ⟨?_, ?_, ?_, ?_⟩
  · intro s hs
    simp [handleResendOTP, hs]
  · intro s n hn
    rw [countdown_closed_form s n (by omega)]
    exact ⟨rfl, rfl⟩
  · intro s
    rw [h30]
    exact ⟨rfl, rfl⟩
  · intro s n hn
    obtain ⟨m, rfl⟩ := Nat.exists_eq_add_of_le hn
    clear hn
    rw [Nat.add_comm, Function.iterate_add_apply]
    induction m with
    | zero => rw [Function.iterate_zero_apply]
    | succ m ih =>
        rw [Function.iterate_succ_apply', ih]
        exact countdownTick_inactive _ (by rw [h30])

end FamHack
